import Mathlib

/-!
Verification of the interactive dimensioning and coordinate-transform engine.

The development shallowly embeds the dimensioning subsystem of the repository:
the `DimensioningLayer` component (state machine, offset projection, live SVG
rendering) and the `TechnicalDrawingExport` component (export-template
rendering under an aspect-fit affine transform).  Coordinates are modelled as
real numbers; the JavaScript `Math.sqrt`, `Math.abs`, `Math.min` and
`Math.max` become their real counterparts.
-/

namespace Dimensioning

/-- A 2D point in canonical drawing-space coordinates. -/
@[ext] structure Point where
  x : ℝ
  y : ℝ

/-- The persisted measurement annotation record (interface `Dimension`). -/
@[ext] structure Dimension where
  id : String
  x1 : ℝ
  y1 : ℝ
  x2 : ℝ
  y2 : ℝ
  offset : ℝ
  label : String

/-- The `currentTool` prop: draw or select. -/
inductive Tool where
  | draw : Tool
  | select : Tool
deriving DecidableEq

/-- The `DrawingState` union type of `DimensioningLayer`. -/
inductive DrawingState where
  | idle : DrawingState
  | first_point : DrawingState
  | second_point : DrawingState
  | offset_point : DrawingState
  | awaiting_label : DrawingState
deriving DecidableEq

/-- The React state of `DimensioningLayer`: one field per `useState` hook. -/
structure LayerState where
  dimensions : List Dimension
  drawingState : DrawingState
  firstPoint : Option Point
  secondPoint : Option Point
  offsetPoint : Option Point
  labelInput : String
  isShiftPressed : Bool
  dimensionHistory : List (List Dimension)

/-- The props of `DimensioningLayer` relevant to the handlers. -/
structure LayerProps where
  width : ℝ
  height : ℝ
  isActive : Bool
  currentTool : Tool

/-- A keyboard event: the `key` string and the `ctrlKey` modifier flag. -/
structure KeyEvent where
  key : String
  ctrlKey : Bool

/-- The initial `useState` values of `DimensioningLayer`. -/
def initialState : LayerState :=
  { dimensions := []
    drawingState := DrawingState.idle
    firstPoint := none
    secondPoint := none
    offsetPoint := none
    labelInput := ""
    isShiftPressed := false
    dimensionHistory := [] }

/-- Source `getScaledCoordinates`: the pointer position is inverse-transformed
through the screen CTM into SVG user space (the argument `svgPt` here), then
clamped componentwise to the canonical bounds `[0, width] x [0, height]`. -/
noncomputable def getScaledCoordinates (width height : ℝ) (svgPt : Point) : Point :=
  { x := max 0 (min width svgPt.x)
    y := max 0 (min height svgPt.y) }

/-- Source `calculateOffset(fp, sp, op)`: signed distance of `op` from the
midpoint of segment `fp`-`sp` along the perpendicular normal; returns the
constant 50 when the segment has zero length. -/
noncomputable def calculateOffset (fp sp op : Point) : ℝ :=
  let dx := sp.x - fp.x
  let dy := sp.y - fp.y
  let len := Real.sqrt (dx * dx + dy * dy)
  if len = 0 then 50
  else
    let normalX := -dy / len
    let normalY := dx / len
    let midX := (fp.x + sp.x) / 2
    let midY := (fp.y + sp.y) / 2
    let toOffsetX := op.x - midX
    let toOffsetY := op.y - midY
    toOffsetX * normalX + toOffsetY * normalY

/-- Source `handleKeyDown`: Shift sets the axis-snap flag, Escape clears the
three transient points and returns to idle, and Ctrl+Z (with a non-empty
history) pops the last snapshot and replaces the dimension list with it. -/
noncomputable def handleKeyDown (e : KeyEvent) (s : LayerState) : LayerState :=
  let s1 := if e.key = "Shift" then { s with isShiftPressed := true } else s
  let s2 :=
    if e.key = "Escape" then
      { s1 with drawingState := DrawingState.idle
                firstPoint := none
                secondPoint := none
                offsetPoint := none }
    else s1
  if e.ctrlKey = true ∧ e.key = "z" ∧ 0 < s2.dimensionHistory.length then
    { s2 with dimensions := s2.dimensionHistory.getLastD []
              dimensionHistory := s2.dimensionHistory.dropLast }
  else s2

/-- Source `handleCanvasClick`: guarded by `isActive` and the draw tool; the
first click records the clamped point and enters `second_point`, the second
click freezes the preview endpoint by entering `offset_point`, the third
click enters `awaiting_label`. -/
noncomputable def handleCanvasClick (props : LayerProps) (e : Point) (s : LayerState) :
    LayerState :=
  if props.isActive = false ∨ props.currentTool ≠ Tool.draw then s
  else
    let point := getScaledCoordinates props.width props.height e
    match s.drawingState with
    | DrawingState.idle =>
        { s with firstPoint := some point
                 secondPoint := none
                 offsetPoint := none
                 drawingState := DrawingState.second_point }
    | DrawingState.second_point => { s with drawingState := DrawingState.offset_point }
    | DrawingState.offset_point => { s with drawingState := DrawingState.awaiting_label }
    | _ => s

/-- Source `handleCanvasMouseMove`: in `second_point` (with a first point) the
live second point follows the pointer, axis-snapped while Shift is held; in
`offset_point` (with both points) the live offset point follows the pointer. -/
noncomputable def handleCanvasMouseMove (props : LayerProps) (e : Point) (s : LayerState) :
    LayerState :=
  if props.isActive = false ∨ props.currentTool ≠ Tool.draw then s
  else
    let current := getScaledCoordinates props.width props.height e
    match s.drawingState, s.firstPoint, s.secondPoint with
    | DrawingState.second_point, some fp, _ =>
        let finalPoint :=
          if s.isShiftPressed then
            let dx := |current.x - fp.x|
            let dy := |current.y - fp.y|
            if dx > dy then { x := current.x, y := fp.y }
            else { x := fp.x, y := current.y }
          else current
        { s with secondPoint := some finalPoint }
    | DrawingState.offset_point, some _, some _ =>
        { s with offsetPoint := some current }
    | _, _, _ => s

/-- The label text input change handler: `setLabelInput(e.target.value)`. -/
def setLabelInput (v : String) (s : LayerState) : LayerState :=
  { s with labelInput := v }

/-- Drop leading and trailing whitespace characters from a character list. -/
def trimChars (cs : List Char) : List Char :=
  ((cs.dropWhile Char.isWhitespace).reverse.dropWhile Char.isWhitespace).reverse

/-- The JavaScript `String.prototype.trim()` used by `handleLabelSubmit`,
modelled structurally: remove leading and trailing whitespace. -/
def jsTrim (s : String) : String := String.mk (trimChars s.data)

/-- Source `handleLabelSubmit`: requires all three points and a non-blank
label; computes the offset, builds the new Dimension (its id comes from
`Date.now()` and is passed in here as `newId`), pushes the pre-commit list
onto the history stack, appends the new record, clears the transient state
and returns to idle. -/
noncomputable def handleLabelSubmit (newId : String) (s : LayerState) : LayerState :=
  match s.firstPoint, s.secondPoint, s.offsetPoint with
  | some fp, some sp, some op =>
      if jsTrim s.labelInput = "" then s
      else
        let offset := calculateOffset fp sp op
        let newDim : Dimension :=
          { id := newId
            x1 := fp.x
            y1 := fp.y
            x2 := sp.x
            y2 := sp.y
            offset := offset
            label := s.labelInput }
        { s with dimensionHistory := s.dimensionHistory ++ [s.dimensions]
                 dimensions := s.dimensions ++ [newDim]
                 labelInput := ""
                 firstPoint := none
                 secondPoint := none
                 offsetPoint := none
                 drawingState := DrawingState.idle }
  | _, _, _ => s

/-- The geometric primitives produced for one committed dimension: the two
extension lines, the offset dimension line, and the label anchor point. -/
@[ext] structure DimensionGeometry where
  ext1Start : Point
  ext1End : Point
  ext2Start : Point
  ext2End : Point
  dimStart : Point
  dimEnd : Point
  labelAnchor : Point

/-- The per-dimension body of `dimensions.map` in the `DimensioningLayer`
render: `none` for a zero-length segment (the source returns `null`),
otherwise the extension lines, dimension line and label anchor. -/
noncomputable def renderDimension (dim : Dimension) : Option DimensionGeometry :=
  let dx := dim.x2 - dim.x1
  let dy := dim.y2 - dim.y1
  let len := Real.sqrt (dx * dx + dy * dy)
  if len = 0 then none
  else
    let normalX := -dy / len
    let normalY := dx / len
    let dimX1 := dim.x1 + normalX * dim.offset
    let dimY1 := dim.y1 + normalY * dim.offset
    let dimX2 := dim.x2 + normalX * dim.offset
    let dimY2 := dim.y2 + normalY * dim.offset
    let extDirection : ℝ := if dim.offset ≥ 0 then 1 else -1
    let extLen : ℝ := 20
    let ext1X2 := dim.x1 + normalX * (|dim.offset| + extLen) * extDirection
    let ext1Y2 := dim.y1 + normalY * (|dim.offset| + extLen) * extDirection
    let ext2X2 := dim.x2 + normalX * (|dim.offset| + extLen) * extDirection
    let ext2Y2 := dim.y2 + normalY * (|dim.offset| + extLen) * extDirection
    let textX := (dimX1 + dimX2) / 2
    let textY := (dimY1 + dimY2) / 2
    some
      { ext1Start := { x := dim.x1, y := dim.y1 }
        ext1End := { x := ext1X2, y := ext1Y2 }
        ext2Start := { x := dim.x2, y := dim.y2 }
        ext2End := { x := ext2X2, y := ext2Y2 }
        dimStart := { x := dimX1, y := dimY1 }
        dimEnd := { x := dimX2, y := dimY2 }
        labelAnchor := { x := textX, y := textY } }

/-- The full live render of the dimension list: zero-length records render to
nothing, all others render in order. -/
noncomputable def renderDimensions (dims : List Dimension) : List DimensionGeometry :=
  dims.filterMap renderDimension

end Dimensioning

namespace Dimensioning

/-! The export template (`TechnicalDrawingExport`). -/

/-- Source constant: the canonical canvas width the dimensions were drawn on. -/
def sourceWidth : ℝ := 1974

/-- Source constant: the canonical canvas height the dimensions were drawn on. -/
def sourceHeight : ℝ := 1711

/-- A rectangle, for the export template's image placement. -/
structure Rect where
  x : ℝ
  y : ℝ
  w : ℝ
  h : ℝ

/-- Source `targetRect`: the sub-rectangle of the export template that holds
the isometric image. -/
noncomputable def targetRect : Rect := { x := 20.5, y := 124.8, w := 554.2, h := 470.7 }

/-- Source `imgScale`: the aspect-fit (`meet`) scale factor. -/
noncomputable def imgScale : ℝ :=
  min (targetRect.w / sourceWidth) (targetRect.h / sourceHeight)

/-- Source `scaledWidth`. -/
noncomputable def scaledWidth : ℝ := sourceWidth * imgScale

/-- Source `scaledHeight`. -/
noncomputable def scaledHeight : ℝ := sourceHeight * imgScale

/-- Source `offsetX`: centers the scaled image horizontally in the rect. -/
noncomputable def offsetX : ℝ := targetRect.x + (targetRect.w - scaledWidth) / 2

/-- Source `offsetY`: centers the scaled image vertically in the rect. -/
noncomputable def offsetY : ℝ := targetRect.y + (targetRect.h - scaledHeight) / 2

/-- The SVG group transform `translate(offsetX, offsetY) scale(imgScale)`
applied to the export dimensions layer: local point `p` lands at
`(offsetX + imgScale * p.x, offsetY + imgScale * p.y)`. -/
noncomputable def exportGroupTransform (p : Point) : Point :=
  { x := offsetX + imgScale * p.x
    y := offsetY + imgScale * p.y }

/-- The per-dimension body of `dimensions.map` in `TechnicalDrawingExport`
(coordinates local to the transformed group): `none` for a zero-length
segment, otherwise the same extension/dimension-line construction as the
live layer. -/
noncomputable def exportRenderDimension (dim : Dimension) : Option DimensionGeometry :=
  let dx := dim.x2 - dim.x1
  let dy := dim.y2 - dim.y1
  let len := Real.sqrt (dx * dx + dy * dy)
  if len = 0 then none
  else
    let normalX := -dy / len
    let normalY := dx / len
    let dimX1 := dim.x1 + normalX * dim.offset
    let dimY1 := dim.y1 + normalY * dim.offset
    let dimX2 := dim.x2 + normalX * dim.offset
    let dimY2 := dim.y2 + normalY * dim.offset
    let extDirection : ℝ := if dim.offset ≥ 0 then 1 else -1
    let extLen : ℝ := 20
    let ext1X2 := dim.x1 + normalX * (|dim.offset| + extLen) * extDirection
    let ext1Y2 := dim.y1 + normalY * (|dim.offset| + extLen) * extDirection
    let ext2X2 := dim.x2 + normalX * (|dim.offset| + extLen) * extDirection
    let ext2Y2 := dim.y2 + normalY * (|dim.offset| + extLen) * extDirection
    let textX := (dimX1 + dimX2) / 2
    let textY := (dimY1 + dimY2) / 2
    some
      { ext1Start := { x := dim.x1, y := dim.y1 }
        ext1End := { x := ext1X2, y := ext1Y2 }
        ext2Start := { x := dim.x2, y := dim.y2 }
        ext2End := { x := ext2X2, y := ext2Y2 }
        dimStart := { x := dimX1, y := dimY1 }
        dimEnd := { x := dimX2, y := dimY2 }
        labelAnchor := { x := textX, y := textY } }

/-- Apply a point transform to every point of a geometry record. -/
noncomputable def mapGeometry (f : Point → Point) (g : DimensionGeometry) :
    DimensionGeometry :=
  { ext1Start := f g.ext1Start
    ext1End := f g.ext1End
    ext2Start := f g.ext2Start
    ext2End := f g.ext2End
    dimStart := f g.dimStart
    dimEnd := f g.dimEnd
    labelAnchor := f g.labelAnchor }

/-- What the export surface actually draws for one dimension: the local
geometry pushed through the enclosing SVG group transform. -/
noncomputable def exportRenderedDimension (dim : Dimension) : Option DimensionGeometry :=
  (exportRenderDimension dim).map (mapGeometry exportGroupTransform)

/-- The full export render of the dimension list. -/
noncomputable def exportRenderedDimensions (dims : List Dimension) :
    List DimensionGeometry :=
  dims.filterMap exportRenderedDimension

/-- Modelled from the spec: the aspect-fit, centered scale factor
`min(targetRect.width / sourceWidth, targetRect.height / sourceHeight)`. -/
noncomputable def specScale : ℝ :=
  min (targetRect.w / sourceWidth) (targetRect.h / sourceHeight)

/-- Modelled from the spec: the centering offset
`targetRect.origin + (targetRect.size - scaledSourceSize) / 2`. -/
noncomputable def specOffset : Point :=
  { x := targetRect.x + (targetRect.w - sourceWidth * specScale) / 2
    y := targetRect.y + (targetRect.h - sourceHeight * specScale) / 2 }

/-- Modelled from the spec: the affine map `point * scale + offset`. -/
noncomputable def specAffine (p : Point) : Point :=
  { x := p.x * specScale + specOffset.x
    y := p.y * specScale + specOffset.y }

end Dimensioning

namespace Dimensioning

/-! Basic facts used by several proofs. -/

/-- The clamp of `getScaledCoordinates` is the identity on in-bounds points. -/
lemma getScaledCoordinates_of_mem (w h : ℝ) (p : Point)
    (h1 : 0 ≤ p.x) (h2 : p.x ≤ w) (h3 : 0 ≤ p.y) (h4 : p.y ≤ h) :
    getScaledCoordinates w h p = p := by
  unfold getScaledCoordinates
  ext
  · simp only [min_eq_right h2, max_eq_right h1]
  · simp only [min_eq_right h4, max_eq_right h3]

/-- The squared length of a segment with distinct endpoints is positive. -/
lemma len_sq_pos (x1 y1 x2 y2 : ℝ) (h : ¬(x1 = x2 ∧ y1 = y2)) :
    0 < (x2 - x1) * (x2 - x1) + (y2 - y1) * (y2 - y1) := by
  rcases not_and_or.mp h with hx | hy
  · have hdx : x2 - x1 ≠ 0 := sub_ne_zero.mpr fun e => hx e.symm
    have := mul_self_pos.mpr hdx
    nlinarith [mul_self_nonneg (y2 - y1)]
  · have hdy : y2 - y1 ≠ 0 := sub_ne_zero.mpr fun e => hy e.symm
    have := mul_self_pos.mpr hdy
    nlinarith [mul_self_nonneg (x2 - x1)]

/-- The length of a segment with distinct endpoints is positive. -/
lemma len_pos (x1 y1 x2 y2 : ℝ) (h : ¬(x1 = x2 ∧ y1 = y2)) :
    0 < Real.sqrt ((x2 - x1) * (x2 - x1) + (y2 - y1) * (y2 - y1)) :=
  Real.sqrt_pos.mpr (len_sq_pos x1 y1 x2 y2 h)

/-- Evaluation of a full three-click sequence (with a pointer move before
each click) at (10,10), (110,10), (110,60) on the 1974 x 1711 canvas with the
draw tool active, starting idle with no transient points: it ends in
`awaiting_label` holding the three points, leaving the dimension list, the
history and the label input untouched. -/
lemma run_three_clicks (L : List Dimension) (hist : List (List Dimension)) (lab : String) :
    handleCanvasClick { width := 1974, height := 1711, isActive := true, currentTool := Tool.draw }
      { x := 110, y := 60 }
      (handleCanvasMouseMove
        { width := 1974, height := 1711, isActive := true, currentTool := Tool.draw }
        { x := 110, y := 60 }
        (handleCanvasClick
          { width := 1974, height := 1711, isActive := true, currentTool := Tool.draw }
          { x := 110, y := 10 }
          (handleCanvasMouseMove
            { width := 1974, height := 1711, isActive := true, currentTool := Tool.draw }
            { x := 110, y := 10 }
            (handleCanvasClick
              { width := 1974, height := 1711, isActive := true, currentTool := Tool.draw }
              { x := 10, y := 10 }
              (handleCanvasMouseMove
                { width := 1974, height := 1711, isActive := true, currentTool := Tool.draw }
                { x := 10, y := 10 }
                { dimensions := L, drawingState := DrawingState.idle, firstPoint := none,
                  secondPoint := none, offsetPoint := none, labelInput := lab,
                  isShiftPressed := false, dimensionHistory := hist }))))) =
      { dimensions := L, drawingState := DrawingState.awaiting_label,
        firstPoint := some { x := 10, y := 10 }, secondPoint := some { x := 110, y := 10 },
        offsetPoint := some { x := 110, y := 60 }, labelInput := lab,
        isShiftPressed := false, dimensionHistory := hist } := by
  have g1 : getScaledCoordinates 1974 1711 { x := 10, y := 10 } = { x := 10, y := 10 } :=
    getScaledCoordinates_of_mem _ _ _ (by norm_num) (by norm_num) (by norm_num) (by norm_num)
  have g2 : getScaledCoordinates 1974 1711 { x := 110, y := 10 } = { x := 110, y := 10 } :=
    getScaledCoordinates_of_mem _ _ _ (by norm_num) (by norm_num) (by norm_num) (by norm_num)
  have g3 : getScaledCoordinates 1974 1711 { x := 110, y := 60 } = { x := 110, y := 60 } :=
    getScaledCoordinates_of_mem _ _ _ (by norm_num) (by norm_num) (by norm_num) (by norm_num)
  simp only [handleCanvasMouseMove, handleCanvasClick, g1, g2, g3]
  simp

/-- The Ctrl+Z branch of `handleKeyDown` in isolation: with a non-empty
history it pops the last snapshot into the dimension list, otherwise it is a
no-op. -/
lemma handleKeyDown_undo (s : LayerState) :
    handleKeyDown { key := "z", ctrlKey := true } s =
      if 0 < s.dimensionHistory.length then
        { s with dimensions := s.dimensionHistory.getLastD []
                 dimensionHistory := s.dimensionHistory.dropLast }
      else s := by
  simp [handleKeyDown]

/-- C10. For every pair of coincident points `p` and every probe point,
`calculateOffset (p, p, probe)` returns the constant 50: the zero-length
guard fires before any division by the length. -/
theorem c10_calculateOffset_degenerate (p probe : Point) :
    calculateOffset p p probe = 50 := by
  unfold calculateOffset
  simp

/-- C1. The click-driven interaction from the idle initial state: pointer
move and click at (10,10), then (110,10), then (110,60), then submitting the
label "100mm" commits exactly one Dimension with endpoints (10,10)-(110,10),
offset 50 (the signed perpendicular distance of the third click from the
segment midpoint) and label "100mm", pushes the pre-commit (empty) list onto
the history, clears the transient state and returns to idle. -/
theorem c1_three_click_commit (newId : String) :
    handleLabelSubmit newId (setLabelInput "100mm"
      (handleCanvasClick
        { width := 1974, height := 1711, isActive := true, currentTool := Tool.draw }
        { x := 110, y := 60 }
        (handleCanvasMouseMove
          { width := 1974, height := 1711, isActive := true, currentTool := Tool.draw }
          { x := 110, y := 60 }
          (handleCanvasClick
            { width := 1974, height := 1711, isActive := true, currentTool := Tool.draw }
            { x := 110, y := 10 }
            (handleCanvasMouseMove
              { width := 1974, height := 1711, isActive := true, currentTool := Tool.draw }
              { x := 110, y := 10 }
              (handleCanvasClick
                { width := 1974, height := 1711, isActive := true, currentTool := Tool.draw }
                { x := 10, y := 10 }
                (handleCanvasMouseMove
                  { width := 1974, height := 1711, isActive := true, currentTool := Tool.draw }
                  { x := 10, y := 10 }
                  initialState))))))) =
      { dimensions := [{ id := newId, x1 := 10, y1 := 10, x2 := 110, y2 := 10,
                         offset := 50, label := "100mm" }]
        drawingState := DrawingState.idle
        firstPoint := none
        secondPoint := none
        offsetPoint := none
        labelInput := ""
        isShiftPressed := false
        dimensionHistory := [[]] } := by
  have hseq := run_three_clicks [] [] ""
  have hinit : initialState =
      { dimensions := [], drawingState := DrawingState.idle, firstPoint := none,
        secondPoint := none, offsetPoint := none, labelInput := "",
        isShiftPressed := false, dimensionHistory := [] } := rfl
  rw [hinit, hseq]
  have hoff : calculateOffset { x := 10, y := 10 } { x := 110, y := 10 }
      { x := 110, y := 60 } = 50 := by
    have hs : Real.sqrt 10000 = 100 := by
      rw [show (10000:ℝ) = 100 ^ 2 by norm_num]
      exact Real.sqrt_sq (by norm_num)
    simp only [calculateOffset]
    norm_num [hs]
  simp only [setLabelInput, handleLabelSubmit]
  rw [if_neg (by decide : ¬(jsTrim "100mm" = ""))]
  simp [hoff]

/-- C2. For every state holding the three points and a non-blank label (a
valid commit), `handleLabelSubmit` pushes the pre-commit list onto the
history stack and appends the new Dimension, and a subsequent Ctrl+Z undo
restores the dimension list to exactly the pre-commit list. -/
theorem c2_commit_then_undo (s : LayerState) (fp sp op : Point) (newId : String)
    (h1 : s.firstPoint = some fp) (h2 : s.secondPoint = some sp)
    (h3 : s.offsetPoint = some op) (h4 : ¬(jsTrim s.labelInput = "")) :
    (handleLabelSubmit newId s).dimensions =
        s.dimensions ++ [{ id := newId, x1 := fp.x, y1 := fp.y, x2 := sp.x, y2 := sp.y,
                           offset := calculateOffset fp sp op, label := s.labelInput }] ∧
      (handleLabelSubmit newId s).dimensionHistory =
        s.dimensionHistory ++ [s.dimensions] ∧
      (handleKeyDown { key := "z", ctrlKey := true }
          (handleLabelSubmit newId s)).dimensions = s.dimensions := by
  have hsub : handleLabelSubmit newId s =
      { s with dimensionHistory := s.dimensionHistory ++ [s.dimensions]
               dimensions := s.dimensions ++ [{ id := newId, x1 := fp.x, y1 := fp.y,
                                                x2 := sp.x, y2 := sp.y,
                                                offset := calculateOffset fp sp op,
                                                label := s.labelInput }]
               labelInput := ""
               firstPoint := none
               secondPoint := none
               offsetPoint := none
               drawingState := DrawingState.idle } := by
    simp only [handleLabelSubmit, h1, h2, h3]
    rw [if_neg h4]
  refine ⟨by rw [hsub], by rw [hsub], ?_⟩
  rw [hsub, handleKeyDown_undo]
  rw [if_pos (by simp)]
  simp [List.getLastD_concat]

/-- Witness for C2 at a concrete one-element list and a concrete commit. -/
theorem c2_commit_then_undo_witness :
    (handleLabelSubmit "dim-9"
        { dimensions :=
            [{ id := "a", x1 := 0, y1 := 0, x2 := 1, y2 := 0, offset := 5, label := "L" }],
          drawingState := DrawingState.awaiting_label,
          firstPoint := some { x := 0, y := 0 }, secondPoint := some { x := 1, y := 0 },
          offsetPoint := some { x := 0, y := 3 }, labelInput := "x",
          isShiftPressed := false, dimensionHistory := [] }).dimensions =
      [{ id := "a", x1 := 0, y1 := 0, x2 := 1, y2 := 0, offset := 5, label := "L" }] ++
        [{ id := "dim-9", x1 := (({ x := 0, y := 0 } : Point)).x,
           y1 := (({ x := 0, y := 0 } : Point)).y, x2 := (({ x := 1, y := 0 } : Point)).x,
           y2 := (({ x := 1, y := 0 } : Point)).y,
           offset := calculateOffset { x := 0, y := 0 } { x := 1, y := 0 } { x := 0, y := 3 },
           label := "x" }] ∧
      (handleLabelSubmit "dim-9"
          { dimensions :=
              [{ id := "a", x1 := 0, y1 := 0, x2 := 1, y2 := 0, offset := 5, label := "L" }],
            drawingState := DrawingState.awaiting_label,
            firstPoint := some { x := 0, y := 0 }, secondPoint := some { x := 1, y := 0 },
            offsetPoint := some { x := 0, y := 3 }, labelInput := "x",
            isShiftPressed := false, dimensionHistory := [] }).dimensionHistory =
        [] ++ [[{ id := "a", x1 := 0, y1 := 0, x2 := 1, y2 := 0, offset := 5, label := "L" }]] ∧
      (handleKeyDown { key := "z", ctrlKey := true }
          (handleLabelSubmit "dim-9"
            { dimensions :=
                [{ id := "a", x1 := 0, y1 := 0, x2 := 1, y2 := 0, offset := 5, label := "L" }],
              drawingState := DrawingState.awaiting_label,
              firstPoint := some { x := 0, y := 0 }, secondPoint := some { x := 1, y := 0 },
              offsetPoint := some { x := 0, y := 3 }, labelInput := "x",
              isShiftPressed := false, dimensionHistory := [] })).dimensions =
        [{ id := "a", x1 := 0, y1 := 0, x2 := 1, y2 := 0, offset := 5, label := "L" }] :=
  c2_commit_then_undo _ _ _ _ _ rfl rfl rfl (by decide)

/-- C3. For every segment with two distinct endpoints and every real scalar
`k`, the probe point `midpoint + k * normal` (with the unit perpendicular
normal `(-dy/len, dx/len)`) projects back to exactly `k` under
`calculateOffset`: the offset projection is a left inverse of perpendicular
offset placement. -/
theorem c3_offset_roundtrip (p1 p2 : Point) (k : ℝ) (h : p1 ≠ p2) :
    calculateOffset p1 p2
      { x := (p1.x + p2.x) / 2 +
          k * (-(p2.y - p1.y) /
            Real.sqrt ((p2.x - p1.x) * (p2.x - p1.x) + (p2.y - p1.y) * (p2.y - p1.y)))
        y := (p1.y + p2.y) / 2 +
          k * ((p2.x - p1.x) /
            Real.sqrt ((p2.x - p1.x) * (p2.x - p1.x) + (p2.y - p1.y) * (p2.y - p1.y))) } = k := by
  have hcoord : ¬(p1.x = p2.x ∧ p1.y = p2.y) := by
    rintro ⟨hx, hy⟩
    exact h (Point.ext hx hy)
  have hpos := len_sq_pos p1.x p1.y p2.x p2.y hcoord
  have hlen : (0:ℝ) <
      Real.sqrt ((p2.x - p1.x) * (p2.x - p1.x) + (p2.y - p1.y) * (p2.y - p1.y)) :=
    Real.sqrt_pos.mpr hpos
  have hsq2 : Real.sqrt ((p2.x - p1.x) * (p2.x - p1.x) + (p2.y - p1.y) * (p2.y - p1.y)) ^ 2 =
      (p2.x - p1.x) * (p2.x - p1.x) + (p2.y - p1.y) * (p2.y - p1.y) :=
    Real.sq_sqrt hpos.le
  simp only [calculateOffset]
  rw [if_neg (ne_of_gt hlen)]
  field_simp
  linear_combination (-4 * k) * hsq2

/-- Witness for C3 at the segment (0,0)-(1,0) and k = 2: the probe lands at
(1/2, 2) and projects back to 2. -/
theorem c3_offset_roundtrip_witness :
    (({ x := 0, y := 0 } : Point) ≠ { x := 1, y := 0 }) ∧
      calculateOffset { x := 0, y := 0 } { x := 1, y := 0 } { x := 1 / 2, y := 2 } = 2 := by
  have hne : ({ x := 0, y := 0 } : Point) ≠ { x := 1, y := 0 } := by
    intro hcontra
    have hx := congrArg Point.x hcontra
    norm_num at hx
  refine ⟨hne, ?_⟩
  have h := c3_offset_roundtrip { x := 0, y := 0 } { x := 1, y := 0 } 2 hne
  norm_num [Real.sqrt_one] at h
  convert h using 2

/-- C4. For every Dimension with distinct endpoints, the live renderer
produces exactly: dimension-line endpoints at `p_i + normal * offset`,
extension lines from each original endpoint to
`p_i + normal * (|offset| + 20) * direction` with `direction = 1` when
`offset ≥ 0` and `-1` otherwise, and the label anchor at the midpoint of the
offset dimension line; the export renderer computes the same local
geometry. -/
theorem c4_render_geometry (dim : Dimension)
    (h : ¬(dim.x1 = dim.x2 ∧ dim.y1 = dim.y2)) :
    renderDimension dim = some
      { ext1Start := { x := dim.x1, y := dim.y1 }
        ext1End :=
          { x := dim.x1 + -(dim.y2 - dim.y1) /
              Real.sqrt ((dim.x2 - dim.x1) * (dim.x2 - dim.x1) +
                (dim.y2 - dim.y1) * (dim.y2 - dim.y1)) *
              (|dim.offset| + 20) * (if dim.offset ≥ 0 then 1 else -1)
            y := dim.y1 + (dim.x2 - dim.x1) /
              Real.sqrt ((dim.x2 - dim.x1) * (dim.x2 - dim.x1) +
                (dim.y2 - dim.y1) * (dim.y2 - dim.y1)) *
              (|dim.offset| + 20) * (if dim.offset ≥ 0 then 1 else -1) }
        ext2Start := { x := dim.x2, y := dim.y2 }
        ext2End :=
          { x := dim.x2 + -(dim.y2 - dim.y1) /
              Real.sqrt ((dim.x2 - dim.x1) * (dim.x2 - dim.x1) +
                (dim.y2 - dim.y1) * (dim.y2 - dim.y1)) *
              (|dim.offset| + 20) * (if dim.offset ≥ 0 then 1 else -1)
            y := dim.y2 + (dim.x2 - dim.x1) /
              Real.sqrt ((dim.x2 - dim.x1) * (dim.x2 - dim.x1) +
                (dim.y2 - dim.y1) * (dim.y2 - dim.y1)) *
              (|dim.offset| + 20) * (if dim.offset ≥ 0 then 1 else -1) }
        dimStart :=
          { x := dim.x1 + -(dim.y2 - dim.y1) /
              Real.sqrt ((dim.x2 - dim.x1) * (dim.x2 - dim.x1) +
                (dim.y2 - dim.y1) * (dim.y2 - dim.y1)) * dim.offset
            y := dim.y1 + (dim.x2 - dim.x1) /
              Real.sqrt ((dim.x2 - dim.x1) * (dim.x2 - dim.x1) +
                (dim.y2 - dim.y1) * (dim.y2 - dim.y1)) * dim.offset }
        dimEnd :=
          { x := dim.x2 + -(dim.y2 - dim.y1) /
              Real.sqrt ((dim.x2 - dim.x1) * (dim.x2 - dim.x1) +
                (dim.y2 - dim.y1) * (dim.y2 - dim.y1)) * dim.offset
            y := dim.y2 + (dim.x2 - dim.x1) /
              Real.sqrt ((dim.x2 - dim.x1) * (dim.x2 - dim.x1) +
                (dim.y2 - dim.y1) * (dim.y2 - dim.y1)) * dim.offset }
        labelAnchor :=
          { x := ((dim.x1 + -(dim.y2 - dim.y1) /
              Real.sqrt ((dim.x2 - dim.x1) * (dim.x2 - dim.x1) +
                (dim.y2 - dim.y1) * (dim.y2 - dim.y1)) * dim.offset) +
              (dim.x2 + -(dim.y2 - dim.y1) /
              Real.sqrt ((dim.x2 - dim.x1) * (dim.x2 - dim.x1) +
                (dim.y2 - dim.y1) * (dim.y2 - dim.y1)) * dim.offset)) / 2
            y := ((dim.y1 + (dim.x2 - dim.x1) /
              Real.sqrt ((dim.x2 - dim.x1) * (dim.x2 - dim.x1) +
                (dim.y2 - dim.y1) * (dim.y2 - dim.y1)) * dim.offset) +
              (dim.y2 + (dim.x2 - dim.x1) /
              Real.sqrt ((dim.x2 - dim.x1) * (dim.x2 - dim.x1) +
                (dim.y2 - dim.y1) * (dim.y2 - dim.y1)) * dim.offset)) / 2 } } ∧
      exportRenderDimension dim = renderDimension dim := by
  have hlen := len_pos dim.x1 dim.y1 dim.x2 dim.y2 h
  constructor
  · simp only [renderDimension]
    rw [if_neg (ne_of_gt hlen)]
  · rfl

/-- Witness for C4 at the dimension (0,0)-(3,4) with offset 10: the normal is
(-4/5, 3/5) and all rendered primitives evaluate accordingly. -/
theorem c4_render_geometry_witness :
    renderDimension { id := "d", x1 := 0, y1 := 0, x2 := 3, y2 := 4, offset := 10, label := "x" }
      = some
      { ext1Start := { x := 0, y := 0 }
        ext1End := { x := -24, y := 18 }
        ext2Start := { x := 3, y := 4 }
        ext2End := { x := -21, y := 22 }
        dimStart := { x := -8, y := 6 }
        dimEnd := { x := -5, y := 10 }
        labelAnchor := { x := -13 / 2, y := 8 } } ∧
      exportRenderDimension
        { id := "d", x1 := 0, y1 := 0, x2 := 3, y2 := 4, offset := 10, label := "x" } =
      renderDimension
        { id := "d", x1 := 0, y1 := 0, x2 := 3, y2 := 4, offset := 10, label := "x" } := by
  have h := c4_render_geometry
    { id := "d", x1 := 0, y1 := 0, x2 := 3, y2 := 4, offset := 10, label := "x" }
    (by norm_num)
  refine ⟨?_, h.2⟩
  rw [h.1]
  have hsqrt : Real.sqrt 25 = 5 := by
    rw [show (25:ℝ) = 5 ^ 2 by norm_num]
    exact Real.sqrt_sq (by norm_num)
  norm_num [hsqrt]

/-- C5. The export surface draws, for every dimension, exactly the live
renderer's primitives mapped pointwise through the aspect-fit centered
affine transform `point * scale + offset` of the spec (with
`scale = min(targetRect.w / sourceWidth, targetRect.h / sourceHeight)` and
the offset centering the scaled source in the target rect). -/
theorem c5_export_refines_live (dim : Dimension) :
    exportRenderedDimension dim = (renderDimension dim).map (mapGeometry specAffine) := by
  have hfun : exportGroupTransform = specAffine := by
    funext p
    have hx : (exportGroupTransform p).x = (specAffine p).x := by
      show offsetX + imgScale * p.x = p.x * specScale + specOffset.x
      have h1 : specScale = imgScale := rfl
      simp only [offsetX, scaledWidth, specOffset, h1]
      ring
    have hy : (exportGroupTransform p).y = (specAffine p).y := by
      show offsetY + imgScale * p.y = p.y * specScale + specOffset.y
      have h1 : specScale = imgScale := rfl
      simp only [offsetY, scaledHeight, specOffset, h1]
      ring
    exact Point.ext hx hy
  have hren : exportRenderDimension dim = renderDimension dim := rfl
  simp only [exportRenderedDimension, hren, hfun]

/-- C6. A zero-length dimension record renders to nothing on both surfaces
(the guard fires before any division by the length), and every other record
in the surrounding list is still rendered. -/
theorem c6_zero_length_safe (dim : Dimension) (l1 l2 : List Dimension)
    (hx : dim.x1 = dim.x2) (hy : dim.y1 = dim.y2) :
    renderDimension dim = none ∧ exportRenderedDimension dim = none ∧
      renderDimensions (l1 ++ dim :: l2) = renderDimensions l1 ++ renderDimensions l2 ∧
      exportRenderedDimensions (l1 ++ dim :: l2) =
        exportRenderedDimensions l1 ++ exportRenderedDimensions l2 := by
  have h0 : renderDimension dim = none := by
    simp [renderDimension, ← hx, ← hy]
  have h1 : exportRenderedDimension dim = none := by
    have : exportRenderDimension dim = renderDimension dim := rfl
    simp [exportRenderedDimension, this, h0]
  refine ⟨h0, h1, ?_, ?_⟩
  · simp [renderDimensions, List.filterMap_append, h0]
  · simp [exportRenderedDimensions, List.filterMap_append, h1]

/-- Witness for C6: the zero-length record ("d", 5, 6, 5, 6) renders to
nothing on both surfaces while the record before it still renders. -/
theorem c6_zero_length_safe_witness :
    renderDimension { id := "d", x1 := 5, y1 := 6, x2 := 5, y2 := 6, offset := 7, label := "w" }
        = none ∧
      exportRenderedDimension
        { id := "d", x1 := 5, y1 := 6, x2 := 5, y2 := 6, offset := 7, label := "w" } = none ∧
      renderDimensions
          ([{ id := "a", x1 := 0, y1 := 0, x2 := 1, y2 := 0, offset := 5, label := "L" }] ++
            { id := "d", x1 := 5, y1 := 6, x2 := 5, y2 := 6, offset := 7, label := "w" } :: []) =
        renderDimensions
            [{ id := "a", x1 := 0, y1 := 0, x2 := 1, y2 := 0, offset := 5, label := "L" }] ++
          renderDimensions [] ∧
      exportRenderedDimensions
          ([{ id := "a", x1 := 0, y1 := 0, x2 := 1, y2 := 0, offset := 5, label := "L" }] ++
            { id := "d", x1 := 5, y1 := 6, x2 := 5, y2 := 6, offset := 7, label := "w" } :: []) =
        exportRenderedDimensions
            [{ id := "a", x1 := 0, y1 := 0, x2 := 1, y2 := 0, offset := 5, label := "L" }] ++
          exportRenderedDimensions [] :=
  c6_zero_length_safe
    { id := "d", x1 := 5, y1 := 6, x2 := 5, y2 := 6, offset := 7, label := "w" }
    [{ id := "a", x1 := 0, y1 := 0, x2 := 1, y2 := 0, offset := 5, label := "L" }] []
    rfl rfl

/-- C7 (amended). From every interaction state, the Escape cancel signal
discards the three transient points (firstPoint, secondPoint, offsetPoint)
and returns the state machine directly to idle without modifying the
committed dimension list or the history stack; the pending label input text,
however, is NOT cleared by cancel — it persists unchanged. -/
theorem c7_escape_cancels (s : LayerState) :
    handleKeyDown { key := "Escape", ctrlKey := false } s =
      { s with drawingState := DrawingState.idle
               firstPoint := none
               secondPoint := none
               offsetPoint := none } := by
  simp [handleKeyDown]

/-- Counterexample to C7 as stated: cancelling out of `awaiting_label` with
the text "55mm" pending leaves the label input holding "55mm" (it is not
discarded), and a subsequently completed fresh dimension — three clicks then
submit without retyping — commits with the cancelled attempt's label
"55mm". -/
theorem c7_cancel_residue_counterexample :
    (handleKeyDown { key := "Escape", ctrlKey := false }
        { dimensions := [], drawingState := DrawingState.awaiting_label,
          firstPoint := some { x := 10, y := 10 }, secondPoint := some { x := 110, y := 10 },
          offsetPoint := some { x := 110, y := 60 }, labelInput := "55mm",
          isShiftPressed := false, dimensionHistory := [] }).labelInput ≠ "" ∧
      (handleLabelSubmit "dim-2"
          (handleCanvasClick
            { width := 1974, height := 1711, isActive := true, currentTool := Tool.draw }
            { x := 110, y := 60 }
            (handleCanvasMouseMove
              { width := 1974, height := 1711, isActive := true, currentTool := Tool.draw }
              { x := 110, y := 60 }
              (handleCanvasClick
                { width := 1974, height := 1711, isActive := true, currentTool := Tool.draw }
                { x := 110, y := 10 }
                (handleCanvasMouseMove
                  { width := 1974, height := 1711, isActive := true, currentTool := Tool.draw }
                  { x := 110, y := 10 }
                  (handleCanvasClick
                    { width := 1974, height := 1711, isActive := true, currentTool := Tool.draw }
                    { x := 10, y := 10 }
                    (handleCanvasMouseMove
                      { width := 1974, height := 1711, isActive := true,
                        currentTool := Tool.draw }
                      { x := 10, y := 10 }
                      (handleKeyDown { key := "Escape", ctrlKey := false }
                        { dimensions := [], drawingState := DrawingState.awaiting_label,
                          firstPoint := some { x := 10, y := 10 },
                          secondPoint := some { x := 110, y := 10 },
                          offsetPoint := some { x := 110, y := 60 }, labelInput := "55mm",
                          isShiftPressed := false,
                          dimensionHistory := [] })))))))).dimensions.map Dimension.label =
        ["55mm"] := by
  have hesc : handleKeyDown { key := "Escape", ctrlKey := false }
      { dimensions := [], drawingState := DrawingState.awaiting_label,
        firstPoint := some { x := 10, y := 10 }, secondPoint := some { x := 110, y := 10 },
        offsetPoint := some { x := 110, y := 60 }, labelInput := "55mm",
        isShiftPressed := false, dimensionHistory := [] } =
      { dimensions := [], drawingState := DrawingState.idle, firstPoint := none,
        secondPoint := none, offsetPoint := none, labelInput := "55mm",
        isShiftPressed := false, dimensionHistory := [] } := by
    simp [handleKeyDown]
  constructor
  · rw [hesc]
    decide
  · rw [hesc, run_three_clicks [] [] "55mm"]
    simp only [handleLabelSubmit]
    rw [if_neg (by decide : ¬(jsTrim "55mm" = ""))]
    simp

/-- C8. While collecting the second point with Shift held, the live second
point is snapped to the axis of largest displacement from the first point:
`(current.x, firstPoint.y)` when `|dx| > |dy|`, else
`(firstPoint.x, current.y)`; with Shift released it is the (clamped) pointer
position unconstrained. -/
theorem c8_axis_snap (props : LayerProps) (s : LayerState) (fp : Point) (e : Point)
    (hA : props.isActive = true) (hT : props.currentTool = Tool.draw)
    (hS : s.drawingState = DrawingState.second_point) (hF : s.firstPoint = some fp) :
    (handleCanvasMouseMove props e s).secondPoint =
      some (if s.isShiftPressed then
              if |(getScaledCoordinates props.width props.height e).x - fp.x| >
                  |(getScaledCoordinates props.width props.height e).y - fp.y| then
                { x := (getScaledCoordinates props.width props.height e).x, y := fp.y }
              else
                { x := fp.x, y := (getScaledCoordinates props.width props.height e).y }
            else getScaledCoordinates props.width props.height e) := by
  simp only [handleCanvasMouseMove, hA, hT, hS, hF]
  simp

/-- Witness for C8: Shift held, first point (10,10), pointer at (110,60);
the x displacement (100) dominates the y displacement (50), so the live
second point snaps to (110,10). -/
theorem c8_axis_snap_witness :
    (handleCanvasMouseMove
        { width := 1974, height := 1711, isActive := true, currentTool := Tool.draw }
        { x := 110, y := 60 }
        { dimensions := [], drawingState := DrawingState.second_point,
          firstPoint := some { x := 10, y := 10 }, secondPoint := none,
          offsetPoint := none, labelInput := "", isShiftPressed := true,
          dimensionHistory := [] }).secondPoint = some { x := 110, y := 10 } := by
  rw [c8_axis_snap
    { width := 1974, height := 1711, isActive := true, currentTool := Tool.draw }
    { dimensions := [], drawingState := DrawingState.second_point,
      firstPoint := some { x := 10, y := 10 }, secondPoint := none,
      offsetPoint := none, labelInput := "", isShiftPressed := true,
      dimensionHistory := [] }
    { x := 10, y := 10 } { x := 110, y := 60 } rfl rfl rfl rfl]
  rw [getScaledCoordinates_of_mem 1974 1711 { x := 110, y := 60 }
    (by norm_num) (by norm_num) (by norm_num) (by norm_num)]
  norm_num

/-- C9. The input-mapping function `getScaledCoordinates` (at the canonical
canvas size 1974 x 1711) returns a point clamped componentwise into the
canonical bounds for every pointer position; out-of-bounds input is clamped,
never rejected. -/
theorem c9_getScaledCoordinates_clamped (p : Point) :
    0 ≤ (getScaledCoordinates 1974 1711 p).x ∧
      (getScaledCoordinates 1974 1711 p).x ≤ 1974 ∧
      0 ≤ (getScaledCoordinates 1974 1711 p).y ∧
      (getScaledCoordinates 1974 1711 p).y ≤ 1711 := by
  unfold getScaledCoordinates
  refine ⟨le_max_left 0 _, max_le (by norm_num) (min_le_left _ _),
    le_max_left 0 _, max_le (by norm_num) (min_le_left _ _)⟩

end Dimensioning
